import Mathlib

/-!
Verification of the acteur dispatch/lifecycle engine against its
natural-language specification.  The definitions below are a shallow
embedding of the Rust source: asynchronous channels become explicit
queues (lists), the one-shot response channel becomes an `Option` slot,
mutable loop state is threaded explicitly, and a Rust panic is embedded
as an explicit fault outcome.  Each definition's doc comment names the
source item it translates.
-/

namespace Acteur

/-- Commands understood by one mailbox (ActorProxy): translation of
`ActorProxyCommand` in src/actors/proxy.rs.  `Dispatch` carries a
type-erased envelope, modelled here by an abstract payload `E`;
`End` is the stop sentinel. -/
inductive ActorProxyCommand (E : Type) where
  | Dispatch (e : E)
  | End
  deriving DecidableEq, Repr

/-- Translation of the macro recv_until_command_or_end in src/utils.rs,
as a function of the queue contents of the channel.  It returns the first
command that is not a stop sentinel together with the remaining queue, or
`none` when the queue is empty or holds only stop sentinels followed by an
empty queue (the macro breaks as soon as the channel is observed empty
right after consuming a sentinel). -/
def recv_until_command_or_end {E : Type} :
    List (ActorProxyCommand E) → Option (ActorProxyCommand E) × List (ActorProxyCommand E)
  | [] => (none, [])
  | ActorProxyCommand.End :: rest =>
      if rest.isEmpty then (none, rest) else recv_until_command_or_end rest
  | ActorProxyCommand.Dispatch e :: rest => (some (ActorProxyCommand.Dispatch e), rest)

/-- Observable effects of the mailbox end protocol in src/actors/proxy.rs,
actor_loop, End branch.  The vocabulary includes `callDeactivate` because
the Actor contract (src/actors/actor.rs) declares a deactivate hook; the
theorems below settle whether the loop ever emits it. -/
inductive TeardownEffect where
  | takeEntry
  | dropEntry
  | removeEntry
  | signalActorRemoved
  | callDeactivate
  | requeueEnd
  | dispatchEnvelope
  deriving DecidableEq, Repr

/-- Result of running the End branch of actor_loop once: either the loop
resumes (an envelope was found, the End sentinel was requeued and the
envelope dispatched) or the loop exits. -/
inductive EndBranchResult (E : Type) where
  | resumed (envelope : E) (queue : List (ActorProxyCommand E)) (effects : List TeardownEffect)
  | exited (queue : List (ActorProxyCommand E)) (effects : List TeardownEffect)
  deriving DecidableEq, Repr

/-- Translation of the `Ok(Ok(ActorProxyCommand::End))` arm of actor_loop
(src/actors/proxy.rs lines 150-198).  `queue` is the content of the mailbox
channel just after the End command was dequeued; `occupied` is whether the
slot for this identity is occupied in the pool map at the moment the
blocking entry is taken.  Step 1: collapse consecutive End sentinels; if a
Dispatch is found, requeue an End and dispatch it.  Otherwise take the
blocking entry on the pool map, re-check the queue under the hold; if a
Dispatch appeared, drop the entry, requeue an End and dispatch it;
otherwise remove the slot (when occupied), signal the pool and exit. -/
def actor_end_branch {E : Type} (queue : List (ActorProxyCommand E)) (occupied : Bool) :
    EndBranchResult E :=
  match recv_until_command_or_end queue with
  | (some (ActorProxyCommand.Dispatch e), q1) =>
      EndBranchResult.resumed e (q1 ++ [ActorProxyCommand.End])
        [TeardownEffect.requeueEnd, TeardownEffect.dispatchEnvelope]
  | (_, q1) =>
      match recv_until_command_or_end q1 with
      | (some (ActorProxyCommand.Dispatch e), q2) =>
          EndBranchResult.resumed e (q2 ++ [ActorProxyCommand.End])
            [TeardownEffect.takeEntry, TeardownEffect.dropEntry,
             TeardownEffect.requeueEnd, TeardownEffect.dispatchEnvelope]
      | (_, q2) =>
          if occupied then
            EndBranchResult.exited q2
              [TeardownEffect.takeEntry, TeardownEffect.removeEntry,
               TeardownEffect.signalActorRemoved]
          else
            EndBranchResult.exited q2 [TeardownEffect.takeEntry]

/-- The effect trace of an End-branch run. -/
def effectsOf {E : Type} : EndBranchResult E → List TeardownEffect
  | EndBranchResult.resumed _ _ eff => eff
  | EndBranchResult.exited _ eff => eff

/-- Outcome of one user handler invocation: normal return with the updated
actor value, or a panic.  Rust panics are embedded as an explicit fault
outcome. -/
inductive HandlerOutcome (A : Type) where
  | ok (a : A)
  | panicked
  deriving DecidableEq, Repr

/-- What happens to the mailbox loop after one Dispatch arm. -/
inductive LoopControl (A : Type) where
  | continueLoop (a : A)
  | loopAborted
  deriving DecidableEq, Repr

/-- Translation of the `Ok(Ok(ActorProxyCommand::Dispatch(envelope)))` arm
of actor_loop (src/actors/proxy.rs lines 131-133): the arm is exactly
`envelope.dispatch(&mut actor, &assistant).await`, with no surrounding
catching construct, so a fault in the handler propagates out of the loop
body and the loop continues only on normal return. -/
def actor_loop_dispatch_step {A : Type} (run : A → HandlerOutcome A) (a : A) : LoopControl A :=
  match run a with
  | HandlerOutcome.ok a2 => LoopControl.continueLoop a2
  | HandlerOutcome.panicked => LoopControl.loopAborted

/-- What happens to a service worker loop after one Dispatch arm. -/
inductive ServiceStepResult where
  | continueAwaited
  | continueSpawned
  | aborted
  deriving DecidableEq, Repr

/-- Translation of `dispatch` in src/services/manager.rs lines 243-256:
when `wait_for_service` is true the loop awaits the handler inline (no
catching construct, so a fault aborts the loop); when false it spawns a
detached task and returns to receiving immediately, so the loop continues
regardless of the handler outcome. -/
def ServiceManager.dispatch_step (waitForService : Bool) (run : HandlerOutcome Unit) :
    ServiceStepResult :=
  if waitForService then
    match run with
    | HandlerOutcome.ok _ => ServiceStepResult.continueAwaited
    | HandlerOutcome.panicked => ServiceStepResult.aborted
  else
    ServiceStepResult.continueSpawned

/-- Translation of LetterWithResponder in src/envelope.rs: the message is
held in an `Option` (taken on dispatch) and the one-shot response channel
is modelled as the `Option R` slot threaded beside it. -/
structure LetterWithResponder (M R : Type) where
  message : Option M
  deriving DecidableEq, Repr

/-- Translation of LetterWithResponder::dispatch (src/envelope.rs lines
141-147): take the message, run Respond::handle on the actor value
(modelled by `handle`, which returns the updated actor value and the
response), and place exactly the returned response on the one-shot
channel.  When the message was already taken, nothing happens. -/
def LetterWithResponder.dispatch {A M R : Type} (handle : A → M → A × R)
    (l : LetterWithResponder M R) (actor : A) (chan : Option R) :
    LetterWithResponder M R × A × Option R :=
  match l.message with
  | some m =>
      let ar := handle actor m
      (⟨none⟩, ar.1, some ar.2)
  | none => (l, actor, chan)

/-- Translation of the tail of ActorsDirector::call (src/actors/director.rs
line 105): `receiver.recv().await.or(Err("Ups"))` — the value read from the
one-shot channel, or the error when the channel is closed without a value. -/
def actor_call_recv {R : Type} (chan : Option R) : Except String R :=
  match chan with
  | some r => Except.ok r
  | none => Except.error ("Ups")

/-- Translation of ActorsDirector::call (src/actors/director.rs lines
90-106), with the FIFO channel hops (pool inbound channel, mailbox channel)
collapsed into sequential composition: each hop forwards the message and
the responder unchanged (ManagerLetterWithResponder::deliver and
ActorProxy::call of src/envelope.rs and src/actors/proxy.rs), so the call
builds a fresh empty one-shot channel, an envelope holding the message,
lets the mailbox loop dispatch the envelope, then reads the channel. -/
def ActorsDirector.call {A M R : Type} (handle : A → M → A × R) (actor : A) (m : M) :
    Except String R × A :=
  let l : LetterWithResponder M R := ⟨some m⟩
  let d := LetterWithResponder.dispatch handle l actor none
  (actor_call_recv d.2.2, d.2.1)

/-- Translation of ServiceLetterWithResponders in src/services/envelope.rs:
the message and the presence of the responder are both taken on dispatch. -/
structure ServiceLetterWithResponders (M R : Type) where
  message : Option M
  hasResponder : Bool
  deriving DecidableEq, Repr

/-- Translation of ServiceLetterWithResponders::dispatch
(src/services/envelope.rs lines 73-81): take the message; if the responder
is still present, run Serve::handle on the shared service value and send
exactly its return value on the one-shot channel. -/
def ServiceLetterWithResponders.dispatch {S M R : Type} (handle : S → M → R)
    (l : ServiceLetterWithResponders M R) (service : S) (chan : Option R) :
    ServiceLetterWithResponders M R × Option R :=
  match l.message with
  | none => (l, chan)
  | some m =>
      match l.hasResponder with
      | true => (⟨none, false⟩, some (handle service m))
      | false => (⟨none, false⟩, chan)

/-- Translation of the tail of ServicesDirector::call
(src/services/director.rs line 101): `receiver.recv().await.ok_or("Ups!")`. -/
def service_call_recv {R : Type} (chan : Option R) : Except String R :=
  match chan with
  | some r => Except.ok r
  | none => Except.error ("Ups!")

/-- Translation of ServicesDirector::call (src/services/director.rs lines
88-102), with the channel hops collapsed as in ActorsDirector.call. -/
def ServicesDirector.call {S M R : Type} (handle : S → M → R) (service : S) (m : M) :
    Except String R :=
  let l : ServiceLetterWithResponders M R := ⟨some m, true⟩
  let d := ServiceLetterWithResponders.dispatch handle l service none
  service_call_recv d.2

/-- Translation of ManagerLetter in src/envelope.rs: the message is held in
an `Option` and taken on the first delivery. -/
structure ManagerLetter (M : Type) where
  message : Option M
  deriving DecidableEq, Repr

/-- Translation of ManagerLetter::deliver (src/envelope.rs lines 100-105):
`if let Some(message) = self.message.take() { manager.send(message).await }`.
The mailbox is modelled by its queue of pending messages. -/
def ManagerLetter.deliver {M : Type} (l : ManagerLetter M) (mailbox : List M) :
    ManagerLetter M × List M :=
  match l.message with
  | some m => (⟨none⟩, mailbox ++ [m])
  | none => (l, mailbox)

/-- Translation of process_dispatch_all_command (src/actors/manager.rs
lines 223-230): iterate the currently registered mailboxes in iteration
order, calling deliver on the same boxed envelope for each.  The pool map
is modelled as an association list of identity and mailbox queue, in
iteration order. -/
def process_dispatch_all_command {Id M : Type} (l : ManagerLetter M)
    (actors : List (Id × List M)) : List (Id × List M) :=
  (actors.foldl
    (fun acc p =>
      let d := ManagerLetter.deliver acc.1 p.2
      (d.1, acc.2 ++ [(p.1, d.2)]))
    (l, [])).2

/-- Translation of ServiceConcurrency in src/services/service.rs. -/
inductive ServiceConcurrency where
  | Automatic
  | None
  | OnePerCore
  | OneEachTwoCore
  | Fixed (k : Nat)
  | Unlimited
  deriving DecidableEq, Repr

/-- Translation of the concurrency derivation in ServiceManager::new
(src/services/manager.rs lines 59-82): from the config returned by the
service, the size of the service type and the cpu count, compute the number
of worker channels and the wait_for_service flag (initialized true, set to
false in the Unlimited and zero-sized Automatic branches). -/
def ServiceManager.derive_concurrency (c : ServiceConcurrency) (sizeS ncpus : Nat) :
    Nat × Bool :=
  match c with
  | ServiceConcurrency.Automatic =>
      if sizeS = 0 then (1, false) else (ncpus, true)
  | ServiceConcurrency.None => (1, true)
  | ServiceConcurrency.OnePerCore => (ncpus, true)
  | ServiceConcurrency.OneEachTwoCore => (ncpus / 2, true)
  | ServiceConcurrency.Fixed k => (k, true)
  | ServiceConcurrency.Unlimited => (1, false)

/-- The worker-set state built by ServiceManager::new: the senders vector
(channels are abstracted to their indices), the wait_for_service flag, and
the active_services counter.  One worker loop is spawned per sender. -/
structure ServiceManagerModel where
  senders : List Nat
  waitForService : Bool
  activeServices : Nat
  deriving DecidableEq, Repr

/-- Translation of ServiceManager::new (src/services/manager.rs lines
47-118) after the call to initialize: derive the concurrency, build one
channel per worker in a vector, set active_services to the worker count and
spawn one service_loop per channel pair. -/
def ServiceManager.new (c : ServiceConcurrency) (sizeS ncpus : Nat) : ServiceManagerModel :=
  let d := ServiceManager.derive_concurrency c sizeS ncpus
  { senders := List.range d.1
    waitForService := d.2
    activeServices := d.1 }

/-- Translation of ServiceManager::get_next_sender_index
(src/services/manager.rs lines 129-143): when there is exactly one sender
return index 0 without touching the cursor; otherwise advance the cursor,
wrapping to 0 when it reaches the vector length, and return it.  The result
is the new cursor value paired with the chosen index. -/
def ServiceManager.get_next_sender_index (sendersLen cur : Nat) : Nat × Nat :=
  if sendersLen = 1 then (cur, 0)
  else
    let c := cur + 1
    let c2 := if sendersLen ≤ c then 0 else c
    (c2, c2)

/-- Translation of ServiceManager::get_sender (src/services/manager.rs
lines 120-127): index the senders vector at the round-robin index; the
`none` result is the `unreachable!()` branch, which aborts the process. -/
def ServiceManager.get_sender {σ : Type} (senders : List σ) (cur : Nat) :
    Option σ × Nat :=
  let d := ServiceManager.get_next_sender_index senders.length cur
  (senders.get? d.2, d.1)

/-- State observed by ActorsManager::is_ready_to_be_removed: the is_ending
flag, whether the actors map is empty and whether the inbound channel is
empty (src/actors/manager.rs). -/
structure ActorsManagerState where
  isEnding : Bool
  actorsEmpty : Bool
  senderEmpty : Bool
  deriving DecidableEq, Repr

/-- Translation of ActorsManager::is_ready_to_be_removed
(src/actors/manager.rs lines 111-113). -/
def ActorsManager.is_ready_to_be_removed (s : ActorsManagerState) : Bool :=
  s.isEnding && s.actorsEmpty && s.senderEmpty

/-- Occupancy of a slot of the router map when the blocking entry is taken. -/
inductive MapEntry where
  | occupied
  | vacant
  deriving DecidableEq, Repr

/-- Translation of ActorsManager::signal_actor_removed
(src/actors/manager.rs lines 84-107).  `s0` is the state observed before
acquiring the blocking entry on the router map, `s1` the state re-observed
under the hold, `entry` the occupancy of the slot under the hold.  The
result is whether the manager removed itself (and signalled the router):
return early when the first check fails, take the entry, return early when
the re-check under the hold fails, then remove and signal only on an
occupied entry. -/
def ActorsManager.signal_actor_removed (s0 s1 : ActorsManagerState) (entry : MapEntry) :
    Bool :=
  if !(ActorsManager.is_ready_to_be_removed s0) then false
  else if !(ActorsManager.is_ready_to_be_removed s1) then false
  else
    match entry with
    | MapEntry.occupied => true
    | MapEntry.vacant => false

/-- Poll result of a hand-written future. -/
inductive Poll where
  | pending
  | ready
  deriving DecidableEq, Repr

/-- State read by ActorsDirectorStopAwaiter::poll: the is_stopping flag and
the number of managers in the router map. -/
structure ActorsDirectorState where
  isStopping : Bool
  managersCount : Nat
  deriving DecidableEq, Repr

/-- Translation of ActorsDirectorStopAwaiter::poll (src/actors/director.rs
lines 186-197): pending (registering the waker) while the stopping flag is
unset or the managers map is non-empty; ready otherwise. -/
def ActorsDirectorStopAwaiter.poll (s : ActorsDirectorState) : Poll :=
  if !s.isStopping || !(s.managersCount = 0) then Poll.pending else Poll.ready

/-- Translation of WaitSystemStop::poll (src/system_director.rs lines
178-189), the future behind SystemDirector::wait_until_stopped used by the
facade: pending (registering the waker) while get_actor_managers_count is
positive; ready as soon as the count is zero.  No stopping flag is read —
SystemDirector carries none. -/
def WaitSystemStop.poll (managersCount : Nat) : Poll :=
  if 0 < managersCount then Poll.pending else Poll.ready

/-- C2, counterexample: with an empty remaining queue and the slot occupied,
the mailbox end protocol exits after taking the entry, removing the slot and
signalling the pool — the deactivate hook is not among the teardown effects,
so the claim that deactivate is invoked exactly once on mailbox destruction
is false on the code (src/actors/actor.rs itself documents that deactivate
is currently never called). -/
theorem C2_deactivate_not_invoked_counterexample :
    actor_end_branch ([] : List (ActorProxyCommand Nat)) true
      = EndBranchResult.exited []
          [TeardownEffect.takeEntry, TeardownEffect.removeEntry,
           TeardownEffect.signalActorRemoved] ∧
    TeardownEffect.callDeactivate ∉
      effectsOf (actor_end_branch ([] : List (ActorProxyCommand Nat)) true) := by
  exact ⟨rfl, by decide⟩

/-- C2, amended: whenever the mailbox for an identity is destroyed, the
teardown removes the slot from the pool map (when occupied) and signals the
pool, but the deactivate hook is never invoked — on no queue content and no
occupancy does the end branch emit a callDeactivate effect, and the exit
effects are exactly take-entry, remove-slot and signal (or take-entry alone
on a vacant slot). -/
theorem C2_teardown_never_deactivates {E : Type} (q : List (ActorProxyCommand E))
    (occ : Bool) :
    TeardownEffect.callDeactivate ∉ effectsOf (actor_end_branch q occ) ∧
    ∀ q2 eff, actor_end_branch q occ = EndBranchResult.exited q2 eff →
      eff = (if occ then
               [TeardownEffect.takeEntry, TeardownEffect.removeEntry,
                TeardownEffect.signalActorRemoved]
             else [TeardownEffect.takeEntry]) := by
  unfold actor_end_branch
  split
  · exact ⟨by simp [effectsOf], fun q2 eff h => by cases h⟩
  · split
    · exact ⟨by simp [effectsOf], fun q2 eff h => by cases h⟩
    · cases occ
      · exact ⟨by simp [effectsOf], fun q2 eff h => by cases h; rfl⟩
      · exact ⟨by simp [effectsOf], fun q2 eff h => by cases h; rfl⟩

/-- C2, witness for the amended theorem, at the concrete queue holding one
redundant End sentinel and an occupied slot. -/
theorem C2_teardown_never_deactivates_witness :
    TeardownEffect.callDeactivate ∉
      effectsOf (actor_end_branch ([ActorProxyCommand.End] : List (ActorProxyCommand Nat)) true) ∧
    ([TeardownEffect.takeEntry, TeardownEffect.removeEntry,
      TeardownEffect.signalActorRemoved] : List TeardownEffect)
      = (if true then
           [TeardownEffect.takeEntry, TeardownEffect.removeEntry,
            TeardownEffect.signalActorRemoved]
         else [TeardownEffect.takeEntry]) :=
  ⟨(C2_teardown_never_deactivates ([ActorProxyCommand.End] : List (ActorProxyCommand Nat)) true).1,
   (C2_teardown_never_deactivates ([ActorProxyCommand.End] : List (ActorProxyCommand Nat)) true).2
     [] _ (by decide)⟩

/-- C3: for every actor call that returns Ok, the returned value equals the
value returned by the corresponding Respond::handle invocation, and
symmetrically for a service call and Serve::handle — the responder places
exactly the handler's return value on the one-shot channel the caller
awaits. -/
theorem C3_response_round_trip {A M R S : Type} (handle : A → M → A × R)
    (shandle : S → M → R) (a : A) (s : S) (m : M) :
    (ActorsDirector.call handle a m).1 = Except.ok (handle a m).2 ∧
    ServicesDirector.call shandle s m = Except.ok (shandle s m) :=
  ⟨rfl, rfl⟩

/-- C4, counterexample: when the response channel is closed without a value,
the actor call returns Err with the string Ups and the service call Err with
the string Ups! — neither equals the error value the claim states, namely
the string: call failed. -/
theorem C4_error_value_counterexample :
    actor_call_recv (none : Option Nat) = Except.error ("Ups") ∧
    service_call_recv (none : Option Nat) = Except.error ("Ups!") ∧
    ("Ups" : String) ≠ "call failed" ∧ ("Ups!" : String) ≠ "call failed" := by
  refine ⟨rfl, rfl, by decide, by decide⟩

/-- C4, amended: when the response channel is closed without a value the
actor call returns exactly Err with the string Ups and the service call
exactly Err with the string Ups!, and these errors arise exactly in the
closed-channel case; the error is only returned to the caller. -/
theorem C4_closed_channel_error {R : Type} (chan : Option R) :
    (actor_call_recv chan = Except.error ("Ups") ↔ chan = none) ∧
    (service_call_recv chan = Except.error ("Ups!") ↔ chan = none) := by
  cases chan <;> simp [actor_call_recv, service_call_recv]

/-- C5, counterexample: a panicking handler is not caught at the loop
boundary — the Dispatch arm of the mailbox loop propagates the fault and
the loop aborts instead of continuing, and likewise the awaited service
worker path; the claim that the fault is caught and the mailbox remains
usable is false on the code. -/
theorem C5_handler_fault_counterexample :
    actor_loop_dispatch_step (fun _ => HandlerOutcome.panicked) (0 : Nat)
      = LoopControl.loopAborted ∧
    ServiceManager.dispatch_step true HandlerOutcome.panicked = ServiceStepResult.aborted :=
  ⟨rfl, rfl⟩

/-- C5, amended: the loop bodies contain no catching construct — the
mailbox loop aborts exactly when the handler panics, the awaited service
worker path aborts on a panic, and only the detached-task path (the
Unlimited and zero-sized-Automatic configurations) returns to receiving
regardless of the handler outcome. -/
theorem C5_handler_fault_propagates {A : Type} (run : A → HandlerOutcome A) (a : A) :
    (actor_loop_dispatch_step run a = LoopControl.loopAborted ↔
      run a = HandlerOutcome.panicked) ∧
    ServiceManager.dispatch_step true HandlerOutcome.panicked = ServiceStepResult.aborted ∧
    ServiceManager.dispatch_step false HandlerOutcome.panicked
      = ServiceStepResult.continueSpawned := by
  refine ⟨?_, rfl, rfl⟩
  cases h : run a <;> simp [actor_loop_dispatch_step, h]

/-- C6: the number of worker channels and loops built by ServiceManager::new
equals the value derived from the config — None gives 1, OnePerCore the cpu
count, OneEachTwoCore half the cpu count, Fixed k gives k, Unlimited gives 1
with handler invocations spawned as detached tasks, and Automatic gives the
Unlimited behaviour on a zero-sized service value and the OnePerCore count
otherwise. -/
theorem C6_worker_count (sizeS ncpus k : Nat) (c : ServiceConcurrency)
    (r : HandlerOutcome Unit) :
    ServiceManager.derive_concurrency ServiceConcurrency.None sizeS ncpus = (1, true) ∧
    ServiceManager.derive_concurrency ServiceConcurrency.OnePerCore sizeS ncpus
      = (ncpus, true) ∧
    ServiceManager.derive_concurrency ServiceConcurrency.OneEachTwoCore sizeS ncpus
      = (ncpus / 2, true) ∧
    ServiceManager.derive_concurrency (ServiceConcurrency.Fixed k) sizeS ncpus
      = (k, true) ∧
    ServiceManager.derive_concurrency ServiceConcurrency.Unlimited sizeS ncpus
      = (1, false) ∧
    ServiceManager.derive_concurrency ServiceConcurrency.Automatic sizeS ncpus
      = (if sizeS = 0 then (1, false) else (ncpus, true)) ∧
    (ServiceManager.new c sizeS ncpus).senders.length
      = (ServiceManager.derive_concurrency c sizeS ncpus).1 ∧
    (ServiceManager.new ServiceConcurrency.Unlimited sizeS ncpus).waitForService = false ∧
    (ServiceManager.new ServiceConcurrency.Automatic 0 ncpus).waitForService = false ∧
    ServiceManager.dispatch_step false r = ServiceStepResult.continueSpawned := by
  refine ⟨rfl, rfl, rfl, rfl, rfl, rfl, ?_, rfl, rfl, rfl⟩
  simp [ServiceManager.new]

/-- C7: an ActorsManager removes itself from the router map exactly when the
first readiness check passes, the re-check under the exclusive entry hold
finds all three conditions (ending flag set, actors map empty, inbound
channel empty) and the slot is occupied; whenever any of the three
conditions fails, signal_actor_removed returns without removing anything. -/
theorem C7_manager_removal_guard (s0 s1 : ActorsManagerState) (e : MapEntry) :
    (ActorsManager.signal_actor_removed s0 s1 e = true ↔
      (ActorsManager.is_ready_to_be_removed s0 = true ∧
       s1.isEnding = true ∧ s1.actorsEmpty = true ∧ s1.senderEmpty = true ∧
       e = MapEntry.occupied)) ∧
    (ActorsManager.is_ready_to_be_removed s1
      = (s1.isEnding && s1.actorsEmpty && s1.senderEmpty)) := by
  obtain ⟨a0, b0, c0⟩ := s0
  obtain ⟨a1, b1, c1⟩ := s1
  cases e <;> revert a0 b0 c0 a1 b1 c1 <;> decide

/-- C8, counterexample: WaitSystemStop (the future behind the facade's
wait_until_stopped) polls only the manager count and consults no stopping
flag, so it completes as soon as the map is empty — including while no stop
was ever requested — refuting the claim that the wait does not complete
while the ending flag is still false; the ActorsDirector awaiter, in
contrast, stays pending in that situation. -/
theorem C8_wait_system_stop_counterexample :
    WaitSystemStop.poll 0 = Poll.ready ∧
    ActorsDirectorStopAwaiter.poll { isStopping := false, managersCount := 0 }
      = Poll.pending :=
  ⟨rfl, rfl⟩

/-- C8, amended: the ActorsDirector stop awaiter completes exactly when the
stopping flag is set and the managers map is empty, suspending (and
registering the waker) otherwise; but the system-level WaitSystemStop
completes exactly when the managers map is empty, independent of any
stopping flag. -/
theorem C8_stop_awaiter_characterization (s : ActorsDirectorState) (n : Nat) :
    (ActorsDirectorStopAwaiter.poll s = Poll.ready ↔
      (s.isStopping = true ∧ s.managersCount = 0)) ∧
    (WaitSystemStop.poll n = Poll.ready ↔ n = 0) := by
  constructor
  · obtain ⟨b, m⟩ := s
    cases b <;> by_cases hm : m = 0 <;>
      simp [ActorsDirectorStopAwaiter.poll, hm]
  · cases n <;> simp [WaitSystemStop.poll]

/-- C9: evaluating process_dispatch_all_command on a pool with two
registered mailboxes shows that only the first mailbox in iteration order
receives the message — ManagerLetter::deliver takes the message out of the
shared boxed envelope, so the second deliver is a no-op, contradicting both
the claim and the source's own documentation of send_to_all_actors, which
promises delivery to all loaded actors. -/
theorem C9_dispatch_to_all_first_only :
    process_dispatch_all_command (⟨some 5⟩ : ManagerLetter Nat)
      [((1 : Nat), ([] : List Nat)), ((2 : Nat), ([] : List Nat))]
      = [(1, [5]), (2, [])] ∧
    ([((1 : Nat), [5]), ((2 : Nat), ([] : List Nat))]
      ≠ [((1 : Nat), [5]), ((2 : Nat), [5])]) := by
  exact ⟨rfl, by decide⟩

/-- C10: a config of Fixed 0 — and OneEachTwoCore on a machine reporting a
single cpu — derives a worker count of 0, so ServiceManager::new builds an
empty senders vector and spawns no worker loop, and any subsequent
get_sender indexes the empty vector and lands in the unreachable branch
(modelled by the none result), aborting the process. -/
theorem C10_zero_workers_unreachable (sizeS cur ncpus : Nat) :
    (ServiceManager.derive_concurrency (ServiceConcurrency.Fixed 0) sizeS ncpus).1 = 0 ∧
    (ServiceManager.derive_concurrency ServiceConcurrency.OneEachTwoCore sizeS 1).1 = 0 ∧
    (ServiceManager.new (ServiceConcurrency.Fixed 0) sizeS ncpus).senders = [] ∧
    (ServiceManager.get_sender
        ((ServiceManager.new (ServiceConcurrency.Fixed 0) sizeS ncpus).senders) cur).1
      = none := by
  refine ⟨rfl, rfl, rfl, ?_⟩
  simp [ServiceManager.new, ServiceManager.get_sender, ServiceManager.get_next_sender_index,
        ServiceManager.derive_concurrency]

end Acteur
